import Mathlib

/-!
Shallow embedding of `src/plasmoid/contents/code/yahoofinance.mjs`: the three
response-normalisation functions (`resolveChart`, `resolveQuote`,
`resolveProfile`) and the shared helper `getRawValText`, together with the
JavaScript primitives they rely on (`Number.prototype.toFixed`, truthiness,
array indexing).  JavaScript numbers are modelled as rationals, JSON values by
the inductive `JVal`, absent object fields by `Option`, and thrown exceptions
by `Except JsError`.  The HTTP transport and the JSON text parse are outside
the embedding: each resolver takes the already-parsed response document.
-/

set_option maxRecDepth 8000

deriving instance DecidableEq for Except

/-- A JSON/JavaScript value as far as this module observes one.
`jnull` stands for both JavaScript `null` and `undefined`. -/
inductive JVal where
  | jnull : JVal
  | jbool : Bool → JVal
  | jnum : ℚ → JVal
  | jstr : String → JVal
  deriving DecidableEq, Inhabited

/-- JavaScript truthiness on `JVal` (`NaN` does not arise in the rational
model). -/
def JVal.truthy : JVal → Bool
  | .jnull => false
  | .jbool b => b
  | .jnum q => decide (q ≠ 0)
  | .jstr s => decide (s ≠ "")

/-- The provider's `{raw, fmt}` shape as consumed by `getRawValText`: only
the `raw` member is read, and it may hold any JSON value. -/
structure RawValue where
  raw : JVal
  deriving DecidableEq, Inhabited

/-- A `{raw}` field whose `raw` member the source dereferences directly
(`x.raw.toFixed(...)` or bare `x.raw`), so a run that completes requires it
to be numeric. -/
structure RawNum where
  raw : ℚ
  deriving DecidableEq, Inhabited

/-- The provider's `priceHint` field: an object whose `raw` member is the
decimal count handed to `toFixed`. -/
structure PriceHint where
  raw : ℕ
  deriving DecidableEq, Inhabited

/-- The provider's error envelope; the source only consumes `description`
(the full object is merely logged). -/
structure ErrorEnvelope where
  description : String
  deriving DecidableEq, Inhabited

/-- A JavaScript exception: `thrown` for `throw new Error(msg)`, `typeError`
for a runtime property access on `undefined`. -/
inductive JsError where
  | thrown : String → JsError
  | typeError : String → JsError
  deriving DecidableEq, Inhabited

/-- Exactly `d` base-10 digit characters of `m % 10 ^ d`, most significant
first, with leading zeros. -/
def padDigits : ℕ → ℕ → List Char
  | _, 0 => []
  | m, d + 1 => padDigits (m / 10) d ++ [Nat.digitChar (m % 10)]

/-- Fuel-driven decimal digit characters of `n` (no leading zeros); the fuel
is structural so that concrete instances reduce in the kernel. -/
def natDigitsAux : ℕ → ℕ → List Char
  | 0, _ => []
  | fuel + 1, n =>
    if n < 10 then [Nat.digitChar n]
    else natDigitsAux fuel (n / 10) ++ [Nat.digitChar (n % 10)]

/-- Decimal digit characters of `n`. -/
def natToChars (n : ℕ) : List Char := natDigitsAux (n + 1) n

/-- Floor of a rational, computed on the normalised fraction. -/
def ratFloor (x : ℚ) : ℤ := x.num.fdiv x.den

/-- The integer JavaScript `toFixed` rounds to: nearest, and on a tie the
larger candidate wins (ECMAScript `Number.prototype.toFixed`). -/
def jsRound (x : ℚ) : ℤ := ratFloor (x + 1 / 2)

/-- `Number.prototype.toFixed`: decimal text with exactly `d` digits after
the point, and no point at all when `d = 0`. -/
def jsToFixed (x : ℚ) (d : ℕ) : String :=
  let n : ℤ := jsRound (x * 10 ^ d)
  let sign : List Char := if n < 0 then ['-'] else []
  let m : ℕ := n.natAbs
  if d = 0 then String.mk (sign ++ natToChars m)
  else String.mk (sign ++ natToChars (m / 10 ^ d) ++ '.' :: padDigits (m % 10 ^ d) d)

/-- Number of characters after the first '.' of a string (`0` when there is
no '.'). -/
def fracDigitCount (s : String) : ℕ :=
  ((s.data.dropWhile (fun c => c != '.')).drop 1).length

/-- JavaScript array indexing `l[i]`: out of range gives `undefined`,
modelled as `jnull`. -/
def jsIndex (l : List JVal) (i : ℕ) : JVal := (l.get? i).getD JVal.jnull

/-- JavaScript `s.startsWith(pre)`, computed on the character lists. -/
def strStartsWith (s pre : String) : Bool := List.isPrefixOf pre.data s.data

/-- Model of `getRawValText(val, decimals)` (source lines 28-37).
`decimals = none` models a non-number `decimals` argument; both resolvers in
fact always pass the number resolved from the price hint. -/
def getRawValText (val : Option RawValue) (decimals : Option ℕ) : JVal :=
  let result : JVal :=
    match val with
    | some v => v.raw
    | none => JVal.jnull
  match result with
  | JVal.jnum q =>
    match decimals with
    | some d => JVal.jstr (jsToFixed q d)
    | none => JVal.jnum q
  | _ => JVal.jnull

/-- The expression `x.priceHint ? x.priceHint.raw : 2`, inlined in the
source at lines 103 and 153. -/
def resolveDecimals (priceHint : Option PriceHint) : ℕ :=
  match priceHint with
  | some h => h.raw
  | none => 2

/-! ## Chart endpoint (`resolveChart`, source lines 46-86) -/

/-- The provider's `currentTradingPeriod.regular` object (only `start` and
`end` are read), and likewise the `tradingPeriod` object the resolver
builds. -/
structure TradingPeriodBound where
  start : ℚ
  «end» : ℚ
  deriving DecidableEq, Inhabited

/-- The provider's `currentTradingPeriod` object; only `regular` is read. -/
structure CurrentTradingPeriod where
  regular : TradingPeriodBound
  deriving DecidableEq, Inhabited

/-- The fields of `resp.chart.result[0].meta` read by `resolveChart`. -/
structure ChartMeta where
  symbol : String
  currency : String
  instrumentType : String
  exchangeName : String
  regularMarketPrice : ℚ
  previousClose : ℚ
  regularMarketTime : ℚ
  timezone : String
  exchangeTimezoneName : String
  currentTradingPeriod : CurrentTradingPeriod
  deriving DecidableEq, Inhabited

/-- `result.indicators.quote[0]`: the parallel value arrays.  Entries are
arbitrary JSON values because the provider pads them with `null`. -/
structure QuoteArrays where
  «open» : List JVal
  close : List JVal
  high : List JVal
  low : List JVal
  volume : List JVal
  deriving DecidableEq, Inhabited

/-- `result.indicators`; only the `quote` array is read. -/
structure Indicators where
  quote : List QuoteArrays
  deriving DecidableEq, Inhabited

/-- One element of `resp.chart.result`. -/
structure ChartResultItem where
  meta : ChartMeta
  timestamp : List ℚ
  indicators : Indicators
  deriving DecidableEq, Inhabited

/-- The `chart` envelope: an optional error object and the result array. -/
structure ChartEnvelope where
  error : Option ErrorEnvelope
  result : List ChartResultItem
  deriving DecidableEq, Inhabited

/-- A parsed chart response document. -/
structure ChartResp where
  chart : ChartEnvelope
  deriving DecidableEq, Inhabited

/-- The nested object bound to the (second) `exchange` key of the result. -/
structure ExchangeInfo where
  timezone : String
  timezoneName : String
  tradingPeriod : TradingPeriodBound
  deriving DecidableEq, Inhabited

/-- One element of the returned `timeseries` array, in the field order of
the object literal at source lines 76-83. -/
structure Bar where
  timestamp : ℚ
  «open» : JVal
  close : JVal
  high : JVal
  low : JVal
  volume : JVal
  deriving DecidableEq, Inhabited

/-- The record returned by `resolveChart`.  The source object literal binds
the key `exchange` twice (lines 62 and 68); in JavaScript the later binding
wins, so the record carries only the timezone/trading-period object and the
`meta.exchangeName` string bound at line 62 is dropped. -/
structure ChartResult where
  symbol : String
  currency : String
  instrument : String
  currentPrice : ℚ
  previousClose : ℚ
  priceChange : ℚ
  priceChangePercentage : String
  updatedDateTime : ℚ
  exchange : ExchangeInfo
  timeseries : List Bar
  deriving DecidableEq, Inhabited

/-- Model of `resolveChart` (source lines 46-86) from the parsed response
onwards: the URL construction, HTTP fetch, JSON text parse and console
logging are outside the embedding.  `new Date(ms)` is modelled by the
millisecond count itself. -/
def resolveChart (resp : ChartResp) : Except JsError ChartResult :=
  match resp.chart.error with
  | some err => Except.error (JsError.thrown err.description)
  | none =>
    match resp.chart.result.head? with
    | none => Except.error (JsError.typeError "chart.result[0] is undefined")
    | some result =>
      let meta := result.meta
      match result.indicators.quote.head? with
      | none => Except.error (JsError.typeError "indicators.quote[0] is undefined")
      | some quote =>
        Except.ok {
          symbol := meta.symbol
          currency := meta.currency
          instrument := meta.instrumentType
          currentPrice := meta.regularMarketPrice
          previousClose := meta.previousClose
          priceChange := meta.regularMarketPrice - meta.previousClose
          priceChangePercentage :=
            jsToFixed ((meta.regularMarketPrice - meta.previousClose) / meta.previousClose * 100) 2
          updatedDateTime := meta.regularMarketTime * 1000
          exchange := {
            timezone := meta.timezone
            timezoneName := meta.exchangeTimezoneName
            tradingPeriod := {
              start := meta.currentTradingPeriod.regular.start
              «end» := meta.currentTradingPeriod.regular.«end» } }
          timeseries := result.timestamp.enum.map (fun p =>
            { timestamp := p.2 * 1000
              «open» := jsIndex quote.«open» p.1
              close := jsIndex quote.close p.1
              high := jsIndex quote.high p.1
              low := jsIndex quote.low p.1
              volume := jsIndex quote.volume p.1 }) }

/-- Replace `meta.exchangeName` in every result item of a chart response,
leaving everything else unchanged. -/
def setExchangeName (resp : ChartResp) (name : String) : ChartResp :=
  { chart := {
      error := resp.chart.error
      result := resp.chart.result.map (fun item =>
        { meta := { item.meta with exchangeName := name }
          timestamp := item.timestamp
          indicators := item.indicators }) } }

/-! ## Quote-summary envelope (shared by `resolveQuote` and `resolveProfile`) -/

/-- The `quoteSummary` envelope, generic in the result item (the `price`
module for `resolveQuote`, the profile modules for `resolveProfile`). -/
structure QuoteSummaryEnvelope (α : Type) where
  error : Option ErrorEnvelope
  result : List α
  deriving DecidableEq, Inhabited

/-- A parsed quote-summary response document. -/
structure QuoteSummaryResp (α : Type) where
  quoteSummary : QuoteSummaryEnvelope α
  deriving DecidableEq, Inhabited

/-! ## Quote endpoint (`resolveQuote`, source lines 93-125) -/

/-- The fields of `resp.quoteSummary.result[0].price` read by
`resolveQuote`.  Fields the source guards with a truthiness check before
dereferencing `.raw` are `Option RawNum`; fields it stores verbatim or
feeds to `||` are `JVal`; `regularMarketTime` is dereferenced untested. -/
structure PriceResult where
  priceHint : Option PriceHint
  symbol : String
  currency : String
  shortName : JVal
  longName : JVal
  quoteType : String
  exchange : String
  exchangeName : JVal
  regularMarketPrice : Option RawNum
  regularMarketDayHigh : Option RawNum
  regularMarketDayLow : Option RawNum
  regularMarketOpen : Option RawNum
  regularMarketVolume : Option RawNum
  regularMarketTime : ℚ
  regularMarketChange : Option RawNum
  regularMarketChangePercent : Option RawNum
  regularMarketPreviousClose : Option RawNum
  marketCap : Option RawNum
  deriving DecidableEq, Inhabited

/-- One element of `resp.quoteSummary.result` for the `price` module. -/
structure QuoteResultItem where
  price : PriceResult
  deriving DecidableEq, Inhabited

/-- The record returned by `resolveQuote`, in the field order of the object
literal at source lines 104-123. -/
structure QuoteResult where
  symbol : String
  currency : String
  shortName : JVal
  longName : JVal
  instrument : String
  exchange : String
  exchangeName : JVal
  currentPrice : JVal
  dayHighPrice : JVal
  dayLowPrice : JVal
  openPrice : JVal
  volume : JVal
  updatedDateTime : ℚ
  priceChange : JVal
  priceChangePercentage : JVal
  priceDecimals : ℕ
  previousClose : JVal
  marketCap : JVal
  deriving DecidableEq, Inhabited

/-- Model of `resolveQuote` (source lines 93-125) from the parsed response
onwards.  Note the guard for `dayLowPrice` at source line 114: it tests
`regularMarketDayHigh`, not `regularMarketDayLow`, so when the high is
present but the low absent the access `regularMarketDayLow.raw` throws a
`TypeError`. -/
def resolveQuote (resp : QuoteSummaryResp QuoteResultItem) : Except JsError QuoteResult :=
  match resp.quoteSummary.error with
  | some err => Except.error (JsError.thrown err.description)
  | none =>
    match resp.quoteSummary.result.head? with
    | none => Except.error (JsError.typeError "quoteSummary.result[0] is undefined")
    | some item =>
      let priceResult := item.price
      let decimals := resolveDecimals priceResult.priceHint
      let dayLowPriceE : Except JsError JVal :=
        match priceResult.regularMarketDayHigh with
        | some _ =>
          match priceResult.regularMarketDayLow with
          | some v => Except.ok (JVal.jstr (jsToFixed v.raw decimals))
          | none => Except.error (JsError.typeError "regularMarketDayLow is undefined")
        | none => Except.ok JVal.jnull
      match dayLowPriceE with
      | Except.error e => Except.error e
      | Except.ok dayLowPrice =>
        Except.ok {
          symbol := priceResult.symbol
          currency := priceResult.currency
          shortName := priceResult.shortName
          longName :=
            if priceResult.longName.truthy then priceResult.longName else priceResult.shortName
          instrument := priceResult.quoteType
          exchange := priceResult.exchange
          exchangeName :=
            if priceResult.exchangeName.truthy then priceResult.exchangeName else JVal.jnull
          currentPrice :=
            match priceResult.regularMarketPrice with
            | some v => JVal.jstr (jsToFixed v.raw decimals)
            | none => JVal.jnull
          dayHighPrice :=
            match priceResult.regularMarketDayHigh with
            | some v => JVal.jstr (jsToFixed v.raw decimals)
            | none => JVal.jnull
          dayLowPrice := dayLowPrice
          openPrice :=
            match priceResult.regularMarketOpen with
            | some v => JVal.jstr (jsToFixed v.raw decimals)
            | none => JVal.jnull
          volume :=
            match priceResult.regularMarketVolume with
            | some v => JVal.jnum v.raw
            | none => JVal.jnull
          updatedDateTime := priceResult.regularMarketTime * 1000
          priceChange :=
            match priceResult.regularMarketChange with
            | some v => JVal.jstr (jsToFixed v.raw decimals)
            | none => JVal.jnull
          priceChangePercentage :=
            match priceResult.regularMarketChangePercent with
            | some v => JVal.jstr (jsToFixed (v.raw * 100) 2)
            | none => JVal.jnull
          priceDecimals := decimals
          previousClose :=
            match priceResult.regularMarketPreviousClose with
            | some v => JVal.jstr (jsToFixed v.raw decimals)
            | none => JVal.jnull
          marketCap :=
            match priceResult.marketCap with
            | some v => JVal.jnum v.raw
            | none => JVal.jnull }

/-! ## Profile endpoint (`resolveProfile`, source lines 140-195) -/

/-- An object whose `fmt` member is read (`exDividendDate.fmt`). -/
structure FmtValue where
  fmt : String
  deriving DecidableEq, Inhabited

/-- The fields of `result.summaryDetail` read by `resolveProfile`.  Fields
handed to `getRawValText` are `Option RawValue` (their `raw` may hold any
JSON value); fields whose `raw` the source dereferences directly after a
truthiness test are `Option RawNum`. -/
structure SummaryDetailResp where
  priceHint : Option PriceHint
  currency : String
  beta : Option RawValue
  fiftyTwoWeekLow : Option RawValue
  fiftyTwoWeekHigh : Option RawValue
  fiftyDayAverage : Option RawValue
  twoHundredDayAverage : Option RawValue
  dividendRate : Option RawValue
  dividendYield : Option RawNum
  exDividendDate : Option FmtValue
  trailingAnnualDividendRate : Option RawValue
  trailingAnnualDividendYield : Option RawNum
  deriving DecidableEq, Inhabited

/-- The fields of `result.summaryProfile` read by the non-index branch. -/
structure SummaryProfileResp where
  address1 : String
  address2 : Option String
  city : String
  zip : String
  country : String
  phone : String
  website : String
  industry : String
  sector : String
  longBusinessSummary : String
  fullTimeEmployees : ℚ
  deriving DecidableEq, Inhabited

/-- The `components` module; its inner `components` list may be `null`
(for example for `^SPX`). -/
structure ComponentsModule where
  components : Option (List String)
  deriving DecidableEq, Inhabited

/-- One element of `resp.quoteSummary.result` for the profile request: the
`summaryDetail` module is present in both branches, `components` only in
index responses and `summaryProfile` only in non-index responses. -/
structure ProfileResultItem where
  summaryDetail : SummaryDetailResp
  components : Option ComponentsModule
  summaryProfile : Option SummaryProfileResp
  deriving DecidableEq, Inhabited

/-- The `priceHistory` block of the returned `summaryDetail`. -/
structure PriceHistoryOut where
  beta : JVal
  fiftyTwoWeekLow : JVal
  fiftyTwoWeekHigh : JVal
  fiftyDayAverage : JVal
  twoHundredDayAverage : JVal
  deriving DecidableEq, Inhabited

/-- The `dividend` block of the returned `summaryDetail`. -/
structure DividendOut where
  rate : JVal
  yield : JVal
  exDate : JVal
  trailingAnnualRate : JVal
  trailingAnnualYield : JVal
  deriving DecidableEq, Inhabited

/-- The returned `summaryDetail` object (source lines 154-170). -/
structure SummaryDetailOut where
  currency : String
  priceHistory : PriceHistoryOut
  dividend : DividendOut
  deriving DecidableEq, Inhabited

/-- The returned `summaryProfile` object (source lines 178-186). -/
structure SummaryProfileOut where
  address : String
  phone : String
  website : String
  industry : String
  sector : String
  description : String
  fullTimeEmployees : ℚ
  deriving DecidableEq, Inhabited

/-- The record returned by `resolveProfile` (source lines 189-193). -/
structure ProfileResult where
  summaryProfile : Option SummaryProfileOut
  summaryDetail : SummaryDetailOut
  components : Option (List String)
  deriving DecidableEq, Inhabited

/-- Model of `resolveProfile` (source lines 140-195) from the parsed
response onwards.  `isIndex` also decides which modules the source puts in
the request URL; the URL itself is outside the embedding. -/
def resolveProfile (symbol : String) (resp : QuoteSummaryResp ProfileResultItem) :
    Except JsError ProfileResult :=
  let isIndex := strStartsWith symbol "^"
  match resp.quoteSummary.error with
  | some err => Except.error (JsError.thrown err.description)
  | none =>
    match resp.quoteSummary.result.head? with
    | none => Except.error (JsError.typeError "quoteSummary.result[0] is undefined")
    | some result =>
      let detailResult := result.summaryDetail
      let decimals := resolveDecimals detailResult.priceHint
      let summaryDetail : SummaryDetailOut := {
        currency := detailResult.currency
        priceHistory := {
          beta := getRawValText detailResult.beta (some decimals)
          fiftyTwoWeekLow := getRawValText detailResult.fiftyTwoWeekLow (some decimals)
          fiftyTwoWeekHigh := getRawValText detailResult.fiftyTwoWeekHigh (some decimals)
          fiftyDayAverage := getRawValText detailResult.fiftyDayAverage (some decimals)
          twoHundredDayAverage := getRawValText detailResult.twoHundredDayAverage (some decimals) }
        dividend := {
          rate := getRawValText detailResult.dividendRate (some decimals)
          yield :=
            match detailResult.dividendYield with
            | some v => JVal.jstr (jsToFixed (v.raw * 100) 2)
            | none => JVal.jnull
          exDate :=
            match detailResult.exDividendDate with
            | some v => JVal.jstr v.fmt
            | none => JVal.jnull
          trailingAnnualRate :=
            getRawValText detailResult.trailingAnnualDividendRate (some decimals)
          trailingAnnualYield :=
            match detailResult.trailingAnnualDividendYield with
            | some v => JVal.jstr (jsToFixed (v.raw * 100) 2)
            | none => JVal.jnull } }
      if isIndex then
        match result.components with
        | none => Except.error (JsError.typeError "result.components is undefined")
        | some m =>
          Except.ok { summaryProfile := none, summaryDetail := summaryDetail,
                      components := m.components }
      else
        match result.summaryProfile with
        | none => Except.error (JsError.typeError "result.summaryProfile is undefined")
        | some profileResult =>
          let address2 :=
            match profileResult.address2 with
            | some s => if s = "" then "" else s ++ ", "
            | none => ""
          Except.ok {
            summaryProfile := some {
              address := profileResult.address1 ++ ", " ++ address2 ++ profileResult.city
                ++ " " ++ profileResult.zip ++ ", " ++ profileResult.country
              phone := profileResult.phone
              website := profileResult.website
              industry := profileResult.industry
              sector := profileResult.sector
              description := profileResult.longBusinessSummary
              fullTimeEmployees := profileResult.fullTimeEmployees }
            summaryDetail := summaryDetail
            components := none }

/-! ## Concrete example documents -/

/-- A provider error envelope. -/
def errEnv : ErrorEnvelope := ⟨"No data found, symbol may be delisted"⟩

/-- Value arrays with a `null` entry (`open[1]`, `volume[1]`) and a short
array (`close` has no index 1). -/
def chartQaOk : QuoteArrays :=
  ⟨[JVal.jnum 10, JVal.jnull], [JVal.jnum 11], [JVal.jnum 12, JVal.jnum 13],
   [JVal.jnum 9, JVal.jnum 8], [JVal.jnum 1000, JVal.jnull]⟩

/-- Chart metadata with `regularMarketPrice = 105`, `previousClose = 100`. -/
def chartMetaOk : ChartMeta :=
  ⟨"AAPL", "USD", "EQUITY", "NasdaqGS", 105, 100, 1600000000, "EST",
   "America/New_York", ⟨⟨34200, 57600⟩⟩⟩

/-- A successful chart result item with two timestamps. -/
def chartItemOk : ChartResultItem := ⟨chartMetaOk, [1, 2], ⟨[chartQaOk]⟩⟩

/-- A successful chart response. -/
def chartRespOk : ChartResp := ⟨⟨none, [chartItemOk]⟩⟩

/-- A chart response carrying a provider error. -/
def chartRespErr : ChartResp := ⟨⟨some errEnv, []⟩⟩

/-- The record `resolveChart` produces for `chartRespOk`. -/
def chartOutOk : ChartResult :=
  match resolveChart chartRespOk with
  | Except.ok r => r
  | Except.error _ => default

/-- A price module with no `priceHint`, no `longName` and every guarded
field present. -/
def priceOk : PriceResult :=
  { priceHint := none
    symbol := "AAPL"
    currency := "USD"
    shortName := JVal.jstr "Apple Inc."
    longName := JVal.jnull
    quoteType := "EQUITY"
    exchange := "NMS"
    exchangeName := JVal.jstr "NasdaqGS"
    regularMarketPrice := some ⟨123456 / 1000⟩
    regularMarketDayHigh := some ⟨125⟩
    regularMarketDayLow := some ⟨120⟩
    regularMarketOpen := some ⟨121⟩
    regularMarketVolume := some ⟨1000000⟩
    regularMarketTime := 1600000000
    regularMarketChange := some ⟨25 / 10⟩
    regularMarketChangePercent := some ⟨5 / 100⟩
    regularMarketPreviousClose := some ⟨100⟩
    marketCap := some ⟨2000000000⟩ }

/-- The result item wrapping `priceOk`. -/
def quoteItemOk : QuoteResultItem := ⟨priceOk⟩

/-- A successful quote response. -/
def quoteRespOk : QuoteSummaryResp QuoteResultItem := ⟨⟨none, [quoteItemOk]⟩⟩

/-- The record `resolveQuote` produces for `quoteRespOk`. -/
def quoteOutOk : QuoteResult :=
  match resolveQuote quoteRespOk with
  | Except.ok r => r
  | Except.error _ => default

/-- `priceOk` with a non-empty provider `longName`. -/
def priceLong : PriceResult := { priceOk with longName := JVal.jstr "Apple Inc. (Long)" }

/-- The result item wrapping `priceLong`. -/
def quoteItemLong : QuoteResultItem := ⟨priceLong⟩

/-- A successful quote response whose provider supplies `longName`. -/
def quoteRespLong : QuoteSummaryResp QuoteResultItem := ⟨⟨none, [quoteItemLong]⟩⟩

/-- The record `resolveQuote` produces for `quoteRespLong`. -/
def quoteOutLong : QuoteResult :=
  match resolveQuote quoteRespLong with
  | Except.ok r => r
  | Except.error _ => default

/-- `priceOk` with `regularMarketDayHigh` absent but `regularMarketDayLow`
supplied. -/
def priceNoDayHigh : PriceResult := { priceOk with regularMarketDayHigh := none }

/-- Quote response for `priceNoDayHigh`. -/
def quoteRespNoDayHigh : QuoteSummaryResp QuoteResultItem := ⟨⟨none, [⟨priceNoDayHigh⟩]⟩⟩

/-- `priceOk` with `regularMarketDayLow` absent but `regularMarketDayHigh`
supplied. -/
def priceNoDayLow : PriceResult := { priceOk with regularMarketDayLow := none }

/-- Quote response for `priceNoDayLow`. -/
def quoteRespNoDayLow : QuoteSummaryResp QuoteResultItem := ⟨⟨none, [⟨priceNoDayLow⟩]⟩⟩

/-- A quote response carrying a provider error. -/
def quoteRespErr : QuoteSummaryResp QuoteResultItem := ⟨⟨some errEnv, []⟩⟩

/-- A summary-detail module with `priceHint = 4`, a fractional dividend
yield of `0.0123`, a non-numeric `fiftyDayAverage.raw` and some absent
fields. -/
def detailOk : SummaryDetailResp :=
  { priceHint := some ⟨4⟩
    currency := "USD"
    beta := some ⟨JVal.jnum (15 / 10)⟩
    fiftyTwoWeekLow := some ⟨JVal.jnum 90⟩
    fiftyTwoWeekHigh := none
    fiftyDayAverage := some ⟨JVal.jstr "N/A"⟩
    twoHundredDayAverage := some ⟨JVal.jnum 101⟩
    dividendRate := some ⟨JVal.jnum (82 / 100)⟩
    dividendYield := some ⟨123 / 10000⟩
    exDividendDate := some ⟨"2020-08-07"⟩
    trailingAnnualDividendRate := none
    trailingAnnualDividendYield := some ⟨75 / 10000⟩ }

/-- A company profile module with `address2` absent. -/
def profileCo : SummaryProfileResp :=
  ⟨"1 Main St", none, "Springfield", "00000", "USA", "555-0100",
   "https://example.com", "Consumer Electronics", "Technology",
   "Makes widgets.", 1000⟩

/-- `profileCo` with `address2` supplied. -/
def profileCo2 : SummaryProfileResp := { profileCo with address2 := some "Suite 5" }

/-- Non-index profile result item (no `components` module). -/
def profileItemCo : ProfileResultItem := ⟨detailOk, none, some profileCo⟩

/-- A successful non-index profile response. -/
def profileRespCo : QuoteSummaryResp ProfileResultItem := ⟨⟨none, [profileItemCo]⟩⟩

/-- Non-index profile result item with `address2` supplied. -/
def profileItemCo2 : ProfileResultItem := ⟨detailOk, none, some profileCo2⟩

/-- A successful non-index profile response with `address2` supplied. -/
def profileRespCo2 : QuoteSummaryResp ProfileResultItem := ⟨⟨none, [profileItemCo2]⟩⟩

/-- Index profile result item: the `components` module is present but its
inner `components` list is `null` (the `^SPX` shape). -/
def profileItemIdx : ProfileResultItem := ⟨detailOk, some ⟨none⟩, none⟩

/-- A successful index profile response. -/
def profileRespIdx : QuoteSummaryResp ProfileResultItem := ⟨⟨none, [profileItemIdx]⟩⟩

/-- A profile response carrying a provider error. -/
def profileRespErr : QuoteSummaryResp ProfileResultItem := ⟨⟨some errEnv, []⟩⟩

/-- The record `resolveProfile` produces for `"AAPL"` on `profileRespCo`. -/
def profileOutCo : ProfileResult :=
  match resolveProfile "AAPL" profileRespCo with
  | Except.ok r => r
  | Except.error _ => default

/-- The record `resolveProfile` produces for `"AAPL"` on `profileRespCo2`. -/
def profileOutCo2 : ProfileResult :=
  match resolveProfile "AAPL" profileRespCo2 with
  | Except.ok r => r
  | Except.error _ => default

/-- The record `resolveProfile` produces for `"^SPX"` on `profileRespIdx`. -/
def profileOutIdx : ProfileResult :=
  match resolveProfile "^SPX" profileRespIdx with
  | Except.ok r => r
  | Except.error _ => default

/-! ## Formatting lemmas: `jsToFixed` always carries exactly `d` fraction
digits -/

theorem padDigits_length : ∀ (d m : ℕ), (padDigits m d).length = d := by
  intro d
  induction d with
  | zero => intro m; rfl
  | succ d ih =>
    intro m
    rw [padDigits, List.length_append, ih (m / 10)]
    rfl

theorem digitChar_ne_dot : ∀ k, k < 10 → Nat.digitChar k ≠ '.' := by decide

theorem natDigitsAux_ne_dot : ∀ (fuel n : ℕ), ∀ a ∈ natDigitsAux fuel n, a ≠ '.' := by
  intro fuel
  induction fuel with
  | zero =>
    intro n a ha
    simp [natDigitsAux] at ha
  | succ fuel ih =>
    intro n a ha
    rw [natDigitsAux] at ha
    by_cases h : n < 10
    · rw [if_pos h, List.mem_singleton] at ha
      subst ha
      exact digitChar_ne_dot n h
    · rw [if_neg h, List.mem_append] at ha
      rcases ha with ha | ha
      · exact ih _ a ha
      · rw [List.mem_singleton] at ha
        subst ha
        exact digitChar_ne_dot _ (Nat.mod_lt _ (by decide))

theorem natToChars_ne_dot (n : ℕ) : ∀ a ∈ natToChars n, a ≠ '.' :=
  natDigitsAux_ne_dot (n + 1) n

theorem dropWhile_ne_dot_append (B : List Char) :
    ∀ (A : List Char), (∀ a ∈ A, a ≠ '.') →
      (A ++ '.' :: B).dropWhile (fun c => c != '.') = '.' :: B := by
  intro A
  induction A with
  | nil =>
    intro _
    simp [List.dropWhile_cons]
  | cons a A ih =>
    intro hA
    have ha : a ≠ '.' := hA a (List.mem_cons_self a A)
    rw [List.cons_append, List.dropWhile_cons, if_pos (by simpa using ha)]
    exact ih (fun b hb => hA b (List.mem_cons_of_mem a hb))

theorem dropWhile_ne_dot_all :
    ∀ (A : List Char), (∀ a ∈ A, a ≠ '.') →
      A.dropWhile (fun c => c != '.') = [] := by
  intro A
  induction A with
  | nil => intro _; rfl
  | cons a A ih =>
    intro hA
    have ha : a ≠ '.' := hA a (List.mem_cons_self a A)
    rw [List.dropWhile_cons, if_pos (by simpa using ha)]
    exact ih (fun b hb => hA b (List.mem_cons_of_mem a hb))

theorem data_mk (l : List Char) : (String.mk l).data = l := rfl

theorem sign_ne_dot (n : ℤ) :
    ∀ a ∈ (if n < 0 then ['-'] else ([] : List Char)), a ≠ '.' := by
  split
  · intro a ha
    rw [List.mem_singleton] at ha
    subst ha
    decide
  · intro a ha
    exact absurd ha (List.not_mem_nil a)

/-- The central formatting invariant: `jsToFixed x d` has exactly `d`
characters after the decimal point (and none when `d = 0`, where no point
is printed). -/
theorem fracDigitCount_jsToFixed (x : ℚ) (d : ℕ) : fracDigitCount (jsToFixed x d) = d := by
  rw [jsToFixed, fracDigitCount]
  by_cases hd : d = 0
  · subst hd
    rw [if_pos rfl]
    have hall : ∀ a ∈ (if jsRound (x * 10 ^ 0) < 0 then ['-'] else ([] : List Char)) ++
        natToChars (jsRound (x * 10 ^ 0)).natAbs, a ≠ '.' := by
      intro a ha
      rw [List.mem_append] at ha
      rcases ha with ha | ha
      · exact sign_ne_dot _ a ha
      · exact natToChars_ne_dot _ a ha
    show (((String.mk _).data.dropWhile _).drop 1).length = 0
    rw [data_mk, dropWhile_ne_dot_all _ hall]
    rfl
  · rw [if_neg hd]
    have hall : ∀ a ∈ (if jsRound (x * 10 ^ d) < 0 then ['-'] else ([] : List Char)) ++
        natToChars ((jsRound (x * 10 ^ d)).natAbs / 10 ^ d), a ≠ '.' := by
      intro a ha
      rw [List.mem_append] at ha
      rcases ha with ha | ha
      · exact sign_ne_dot _ a ha
      · exact natToChars_ne_dot _ a ha
    show (((String.mk _).data.dropWhile _).drop 1).length = d
    rw [data_mk, dropWhile_ne_dot_append _ _ hall]
    simpa using padDigits_length d _

/-! ## Claims -/

/-- C1: `getRawValText` returns the null sentinel when the input object is
absent or its `raw` is not a number; given a numeric decimal count `P` it
returns the `raw` number formatted as text with exactly `P` digits after
the decimal point; given no decimal count it returns the bare number; and
the resolvers turn an absent `priceHint` into the decimal count 2. -/
theorem C1_getRawValText_contract :
    (∀ d : Option ℕ, getRawValText none d = JVal.jnull) ∧
    (∀ (v : RawValue) (d : Option ℕ), (∀ q : ℚ, v.raw ≠ JVal.jnum q) →
      getRawValText (some v) d = JVal.jnull) ∧
    (∀ (q : ℚ) (P : ℕ), getRawValText (some ⟨JVal.jnum q⟩) (some P) =
      JVal.jstr (jsToFixed q P) ∧ fracDigitCount (jsToFixed q P) = P) ∧
    (∀ q : ℚ, getRawValText (some ⟨JVal.jnum q⟩) none = JVal.jnum q) ∧
    resolveDecimals none = 2 := by
  refine ⟨fun d => rfl, ?_, ?_, fun q => rfl, rfl⟩
  · intro v d hv
    rcases v with ⟨raw⟩
    cases raw with
    | jnum q => exact absurd rfl (hv q)
    | jnull => rfl
    | jbool b => rfl
    | jstr s => rfl
  · intro q P
    exact ⟨rfl, fracDigitCount_jsToFixed q P⟩

/-- Witness for C1 at concrete inputs: a non-numeric `raw` yields the null
sentinel, and `raw = 123.456` with two decimals yields the text `"123.46"`
with exactly two fraction digits. -/
theorem C1_getRawValText_contract_witness :
    getRawValText (some ⟨JVal.jstr "N/A"⟩) (some 2) = JVal.jnull ∧
    getRawValText (some ⟨JVal.jnum (123456 / 1000)⟩) (some 2) = JVal.jstr "123.46" ∧
    fracDigitCount "123.46" = 2 := by
  have h := C1_getRawValText_contract
  have hfix : jsToFixed (123456 / 1000) 2 = "123.46" := by with_unfolding_all decide
  refine ⟨h.2.1 ⟨JVal.jstr "N/A"⟩ (some 2) ?_, ?_, ?_⟩
  · intro q hq
    exact JVal.noConfusion hq
  · rw [(h.2.2.1 (123456 / 1000) 2).1, hfix]
  · have h3 := (h.2.2.1 (123456 / 1000) 2).2
    rw [hfix] at h3
    exact h3

/-- C3: a populated provider error envelope (`chart.error` for
`resolveChart`, `quoteSummary.error` for `resolveQuote`/`resolveProfile`)
makes the resolver fail, with the envelope's `description` as the failure
message. -/
theorem C3_error_envelope :
    (∀ (resp : ChartResp) (e : ErrorEnvelope), resp.chart.error = some e →
      resolveChart resp = Except.error (JsError.thrown e.description)) ∧
    (∀ (resp : QuoteSummaryResp QuoteResultItem) (e : ErrorEnvelope),
      resp.quoteSummary.error = some e →
      resolveQuote resp = Except.error (JsError.thrown e.description)) ∧
    (∀ (symbol : String) (resp : QuoteSummaryResp ProfileResultItem) (e : ErrorEnvelope),
      resp.quoteSummary.error = some e →
      resolveProfile symbol resp = Except.error (JsError.thrown e.description)) := by
  refine ⟨?_, ?_, ?_⟩
  · intro resp e he
    simp only [resolveChart, he]
  · intro resp e he
    simp only [resolveQuote, he]
  · intro symbol resp e he
    simp only [resolveProfile, he]

/-- Witness for C3: each resolver on the concrete error responses. -/
theorem C3_error_envelope_witness :
    resolveChart chartRespErr = Except.error (JsError.thrown errEnv.description) ∧
    resolveQuote quoteRespErr = Except.error (JsError.thrown errEnv.description) ∧
    resolveProfile "^GSPC" profileRespErr = Except.error (JsError.thrown errEnv.description) :=
  ⟨C3_error_envelope.1 chartRespErr errEnv rfl,
   C3_error_envelope.2.1 quoteRespErr errEnv rfl,
   C3_error_envelope.2.2 "^GSPC" profileRespErr errEnv rfl⟩

/-- C2: for a successful chart response the timeseries has exactly one bar
per input timestamp; the bar at index `i` carries the input timestamp
scaled by 1000 together with the value-array entries looked up at `i`; and
a missing entry (array too short, or a `null` element) gives a null field
in that bar while the chart as a whole still resolves. -/
theorem C2_timeseries_shape :
    ∀ (resp : ChartResp) (item : ChartResultItem) (rest : List ChartResultItem)
      (qa : QuoteArrays) (qrest : List QuoteArrays) (r : ChartResult),
      resp.chart.error = none →
      resp.chart.result = item :: rest →
      item.indicators.quote = qa :: qrest →
      resolveChart resp = Except.ok r →
      r.timeseries.length = item.timestamp.length ∧
      (∀ (i : ℕ) (t : ℚ), item.timestamp.get? i = some t →
        r.timeseries.get? i = some ⟨t * 1000, jsIndex qa.«open» i, jsIndex qa.close i,
          jsIndex qa.high i, jsIndex qa.low i, jsIndex qa.volume i⟩) ∧
      (∀ (l : List JVal) (i : ℕ), l.get? i = none ∨ l.get? i = some JVal.jnull →
        jsIndex l i = JVal.jnull) := by
  intro resp item rest qa qrest r herr hres hq hok
  simp only [resolveChart, herr, hres, hq, List.head?_cons] at hok
  rw [Except.ok.injEq] at hok
  subst hok
  refine ⟨by simp [List.enum_length], ?_, ?_⟩
  · intro i t ht
    rw [List.get?_eq_getElem?] at ht ⊢
    show (item.timestamp.enum.map _)[i]? = _
    rw [List.getElem?_map, List.getElem?_enum, ht]
    rfl
  · intro l i h
    rcases h with h | h <;> rw [List.get?_eq_getElem?] at h <;> simp [jsIndex, h]

/-- Witness for C2: on the concrete chart response the timeseries has two
bars, and the bar at index 1 pairs timestamp `2 * 1000` with the entries
at index 1 of each value array (null-padded and short arrays included). -/
theorem C2_timeseries_shape_witness :
    chartOutOk.timeseries.length = 2 ∧
    chartOutOk.timeseries.get? 1 = some ⟨2 * 1000, jsIndex chartQaOk.«open» 1,
      jsIndex chartQaOk.close 1, jsIndex chartQaOk.high 1, jsIndex chartQaOk.low 1,
      jsIndex chartQaOk.volume 1⟩ := by
  have h := C2_timeseries_shape chartRespOk chartItemOk [] chartQaOk [] chartOutOk
    rfl rfl rfl rfl
  exact ⟨h.1.trans rfl, h.2.1 1 2 rfl⟩

/-- C6: for a successful chart response `priceChange` equals
`regularMarketPrice - previousClose` and `priceChangePercentage` is the
relative change times 100, text-formatted to 2 decimals; concretely,
`regularMarketPrice = 105` with `previousClose = 100` yields `5` and
`"5.00"`. -/
theorem C6_price_change_derivation :
    (∀ (resp : ChartResp) (item : ChartResultItem) (rest : List ChartResultItem)
       (r : ChartResult),
      resp.chart.error = none →
      resp.chart.result = item :: rest →
      resolveChart resp = Except.ok r →
      r.priceChange = item.meta.regularMarketPrice - item.meta.previousClose ∧
      r.priceChangePercentage =
        jsToFixed ((item.meta.regularMarketPrice - item.meta.previousClose) /
          item.meta.previousClose * 100) 2) ∧
    (resolveChart chartRespOk).map (fun r => (r.priceChange, r.priceChangePercentage)) =
      Except.ok ((5 : ℚ), "5.00") := by
  constructor
  · intro resp item rest r herr hres hok
    simp only [resolveChart, herr, hres, List.head?_cons] at hok
    rcases hq : item.indicators.quote with _ | ⟨qa, qrest⟩ <;> rw [hq] at hok
    · simp at hok
    · simp only [List.head?_cons] at hok
      rw [Except.ok.injEq] at hok
      subst hok
      exact ⟨rfl, rfl⟩
  · with_unfolding_all decide

/-- Witness for C6 at the concrete chart response. -/
theorem C6_price_change_derivation_witness :
    chartOutOk.priceChange = chartMetaOk.regularMarketPrice - chartMetaOk.previousClose ∧
    chartOutOk.priceChangePercentage =
      jsToFixed ((chartMetaOk.regularMarketPrice - chartMetaOk.previousClose) /
        chartMetaOk.previousClose * 100) 2 :=
  C6_price_change_derivation.1 chartRespOk chartItemOk [] chartOutOk rfl rfl rfl

/-- C10: the chart result's `exchange` key is the timezone/trading-period
record (the later of the two duplicate `exchange` bindings in the source's
object literal), and the exchange-name string from `meta.exchangeName`
influences nothing in the result: changing it leaves `resolveChart`'s
output unchanged. -/
theorem C10_duplicate_exchange_key :
    (∀ (resp : ChartResp) (name : String),
      resolveChart (setExchangeName resp name) = resolveChart resp) ∧
    (∀ (resp : ChartResp) (item : ChartResultItem) (rest : List ChartResultItem)
       (r : ChartResult),
      resp.chart.error = none →
      resp.chart.result = item :: rest →
      resolveChart resp = Except.ok r →
      r.exchange = ⟨item.meta.timezone, item.meta.exchangeTimezoneName,
        item.meta.currentTradingPeriod.regular⟩) := by
  constructor
  · intro resp name
    rcases resp with ⟨⟨err, result⟩⟩
    cases err
    · cases result with
      | nil => rfl
      | cons item rest => rfl
    · rfl
  · intro resp item rest r herr hres hok
    simp only [resolveChart, herr, hres, List.head?_cons] at hok
    rcases hq : item.indicators.quote with _ | ⟨qa, qrest⟩ <;> rw [hq] at hok
    · simp at hok
    · simp only [List.head?_cons] at hok
      rw [Except.ok.injEq] at hok
      subst hok
      rfl

/-- Witness for C10 at the concrete chart response: renaming the exchange
changes nothing, and the `exchange` field is the timezone record. -/
theorem C10_duplicate_exchange_key_witness :
    resolveChart (setExchangeName chartRespOk "SomewhereElse") = resolveChart chartRespOk ∧
    chartOutOk.exchange = ⟨chartMetaOk.timezone, chartMetaOk.exchangeTimezoneName,
      chartMetaOk.currentTradingPeriod.regular⟩ :=
  ⟨C10_duplicate_exchange_key.1 chartRespOk "SomewhereElse",
   C10_duplicate_exchange_key.2 chartRespOk chartItemOk [] chartOutOk rfl rfl rfl⟩

/-- C8: in a successful quote result, `longName` equals `shortName`
whenever the provider omits `longName` (for any non-empty `shortName`),
and equals the provider's `longName` whenever that is supplied non-empty. -/
theorem C8_longName_fallback :
    ∀ (resp : QuoteSummaryResp QuoteResultItem) (item : QuoteResultItem)
      (rest : List QuoteResultItem) (r : QuoteResult),
      resp.quoteSummary.error = none →
      resp.quoteSummary.result = item :: rest →
      resolveQuote resp = Except.ok r →
      (∀ t : String, item.price.shortName = JVal.jstr t → t ≠ "" →
        item.price.longName = JVal.jnull → r.longName = JVal.jstr t) ∧
      (∀ s : String, item.price.longName = JVal.jstr s → s ≠ "" →
        r.longName = JVal.jstr s) := by
  intro resp item rest r herr hres hok
  simp only [resolveQuote, herr, hres, List.head?_cons] at hok
  rcases hdh : item.price.regularMarketDayHigh with _ | vh
  · rw [hdh] at hok
    simp only at hok
    rw [Except.ok.injEq] at hok
    subst hok
    constructor
    · intro t hshort hne hlong
      simp [hlong, hshort, JVal.truthy]
    · intro s hlong hne
      simp [hlong, JVal.truthy, hne]
  · rcases hdl : item.price.regularMarketDayLow with _ | vl
    · rw [hdh, hdl] at hok
      simp at hok
    · rw [hdh, hdl] at hok
      simp only at hok
      rw [Except.ok.injEq] at hok
      subst hok
      constructor
      · intro t hshort hne hlong
        simp [hlong, hshort, JVal.truthy]
      · intro s hlong hne
        simp [hlong, JVal.truthy, hne]

/-- Witness for C8: the provider omits `longName` in `quoteRespOk` (so the
short name is used) and supplies it in `quoteRespLong` (so it is kept). -/
theorem C8_longName_fallback_witness :
    quoteOutOk.longName = JVal.jstr "Apple Inc." ∧
    quoteOutLong.longName = JVal.jstr "Apple Inc. (Long)" := by
  have h1 := C8_longName_fallback quoteRespOk quoteItemOk [] quoteOutOk rfl rfl rfl
  have h2 := C8_longName_fallback quoteRespLong quoteItemLong [] quoteOutLong rfl rfl rfl
  exact ⟨h1.1 "Apple Inc." rfl (by decide) rfl,
         h2.2 "Apple Inc. (Long)" rfl (by decide)⟩

/-- C5 counter-evidence (the `dayLowPrice` guard defect at source line
114): with `regularMarketDayHigh` absent but `regularMarketDayLow` supplied
the resolver yields a null `dayLowPrice` instead of a formatted one, and
with `regularMarketDayHigh` supplied but `regularMarketDayLow` absent it
throws instead of yielding a null field. -/
theorem C5_dayLow_guard_defect :
    (resolveQuote quoteRespNoDayHigh).map (fun r => r.dayLowPrice) = Except.ok JVal.jnull ∧
    resolveQuote quoteRespNoDayLow =
      Except.error (JsError.typeError "regularMarketDayLow is undefined") :=
  ⟨rfl, rfl⟩

/-- C4: for a successful profile call on a symbol starting with `^` the
result's `components` is taken verbatim from the response (so an absent
inner list stays absent) and `summaryProfile` is strictly absent; on any
other symbol `summaryProfile` is populated and `components` is strictly
absent. -/
theorem C4_profile_variant :
    (∀ (symbol : String) (resp : QuoteSummaryResp ProfileResultItem)
       (item : ProfileResultItem) (rest : List ProfileResultItem)
       (m : ComponentsModule) (r : ProfileResult),
      strStartsWith symbol "^" = true →
      resp.quoteSummary.error = none →
      resp.quoteSummary.result = item :: rest →
      item.components = some m →
      resolveProfile symbol resp = Except.ok r →
      r.components = m.components ∧ r.summaryProfile = none) ∧
    (∀ (symbol : String) (resp : QuoteSummaryResp ProfileResultItem)
       (item : ProfileResultItem) (rest : List ProfileResultItem)
       (p : SummaryProfileResp) (r : ProfileResult),
      strStartsWith symbol "^" = false →
      resp.quoteSummary.error = none →
      resp.quoteSummary.result = item :: rest →
      item.summaryProfile = some p →
      resolveProfile symbol resp = Except.ok r →
      (∃ sp : SummaryProfileOut, r.summaryProfile = some sp) ∧ r.components = none) := by
  constructor
  · intro symbol resp item rest m r hsym herr hres hcomp hok
    simp only [resolveProfile, hsym, herr, hres, List.head?_cons, if_true, hcomp] at hok
    rw [Except.ok.injEq] at hok
    subst hok
    exact ⟨rfl, rfl⟩
  · intro symbol resp item rest p r hsym herr hres hprof hok
    simp only [resolveProfile, hsym, herr, hres, List.head?_cons, Bool.false_eq_true,
      if_false, hprof] at hok
    rw [Except.ok.injEq] at hok
    subst hok
    exact ⟨⟨_, rfl⟩, rfl⟩

/-- Witness for C4: the index response with an absent inner components
list, and the company response. -/
theorem C4_profile_variant_witness :
    profileOutIdx.components = none ∧ profileOutIdx.summaryProfile = none ∧
    (∃ sp : SummaryProfileOut, profileOutCo.summaryProfile = some sp) ∧
    profileOutCo.components = none := by
  have h1 := C4_profile_variant.1 "^SPX" profileRespIdx profileItemIdx [] ⟨none⟩
    profileOutIdx (by decide) rfl rfl rfl rfl
  have h2 := C4_profile_variant.2 "AAPL" profileRespCo profileItemCo [] profileCo
    profileOutCo (by decide) rfl rfl rfl rfl
  exact ⟨h1.1, h1.2, h2.1, h2.2⟩

/-- C7: in a successful profile result the dividend yield and trailing
annual dividend yield are, when present, the provider's fraction times
100 formatted at fixed 2 decimals (independent of the resolved precision),
while every other price-history and dividend numeric field goes through
`getRawValText` at the precision resolved from the price hint; and a
2-decimal formatting always carries exactly 2 fraction digits. -/
theorem C7_summaryDetail_precision :
    (∀ (symbol : String) (resp : QuoteSummaryResp ProfileResultItem)
       (item : ProfileResultItem) (rest : List ProfileResultItem) (r : ProfileResult),
      resp.quoteSummary.error = none →
      resp.quoteSummary.result = item :: rest →
      resolveProfile symbol resp = Except.ok r →
      (r.summaryDetail.dividend.yield =
        match item.summaryDetail.dividendYield with
        | some v => JVal.jstr (jsToFixed (v.raw * 100) 2)
        | none => JVal.jnull) ∧
      (r.summaryDetail.dividend.trailingAnnualYield =
        match item.summaryDetail.trailingAnnualDividendYield with
        | some v => JVal.jstr (jsToFixed (v.raw * 100) 2)
        | none => JVal.jnull) ∧
      r.summaryDetail.priceHistory.beta =
        getRawValText item.summaryDetail.beta
          (some (resolveDecimals item.summaryDetail.priceHint)) ∧
      r.summaryDetail.priceHistory.fiftyTwoWeekLow =
        getRawValText item.summaryDetail.fiftyTwoWeekLow
          (some (resolveDecimals item.summaryDetail.priceHint)) ∧
      r.summaryDetail.priceHistory.fiftyTwoWeekHigh =
        getRawValText item.summaryDetail.fiftyTwoWeekHigh
          (some (resolveDecimals item.summaryDetail.priceHint)) ∧
      r.summaryDetail.priceHistory.fiftyDayAverage =
        getRawValText item.summaryDetail.fiftyDayAverage
          (some (resolveDecimals item.summaryDetail.priceHint)) ∧
      r.summaryDetail.priceHistory.twoHundredDayAverage =
        getRawValText item.summaryDetail.twoHundredDayAverage
          (some (resolveDecimals item.summaryDetail.priceHint)) ∧
      r.summaryDetail.dividend.rate =
        getRawValText item.summaryDetail.dividendRate
          (some (resolveDecimals item.summaryDetail.priceHint)) ∧
      r.summaryDetail.dividend.trailingAnnualRate =
        getRawValText item.summaryDetail.trailingAnnualDividendRate
          (some (resolveDecimals item.summaryDetail.priceHint))) ∧
    (∀ q : ℚ, fracDigitCount (jsToFixed (q * 100) 2) = 2) := by
  constructor
  · intro symbol resp item rest r herr hres hok
    simp only [resolveProfile, herr, hres, List.head?_cons] at hok
    split at hok
    · split at hok
      · simp at hok
      · rw [Except.ok.injEq] at hok
        subst hok
        exact ⟨rfl, rfl, rfl, rfl, rfl, rfl, rfl, rfl, rfl⟩
    · split at hok
      · simp at hok
      · rw [Except.ok.injEq] at hok
        subst hok
        exact ⟨rfl, rfl, rfl, rfl, rfl, rfl, rfl, rfl, rfl⟩
  · intro q
    exact fracDigitCount_jsToFixed (q * 100) 2

/-- Witness for C7: with `priceHint = 4` the dividend yield `0.0123` comes
out as the 2-decimal percentage `"1.23"` while `beta = 1.5` is formatted to
the resolved 4 decimals as `"1.5000"`. -/
theorem C7_summaryDetail_precision_witness :
    profileOutCo.summaryDetail.dividend.yield = JVal.jstr "1.23" ∧
    profileOutCo.summaryDetail.priceHistory.beta = JVal.jstr "1.5000" ∧
    fracDigitCount "1.23" = 2 := by
  have h := C7_summaryDetail_precision.1 "AAPL" profileRespCo profileItemCo []
    profileOutCo rfl rfl rfl
  refine ⟨?_, ?_, ?_⟩
  · rw [h.1]
    with_unfolding_all decide
  · rw [h.2.2.1]
    with_unfolding_all decide
  · have h3 := C7_summaryDetail_precision.2 (123 / 10000)
    have hfix : jsToFixed (123 / 10000 * 100) 2 = "1.23" := by with_unfolding_all decide
    rw [hfix] at h3
    exact h3

/-- C9: in the non-index branch the assembled address is `address1`, a
comma-space, then (only when `address2` is present) `address2` and a
comma-space, then city, a space, zip, a comma-space and country; with
`address2` absent the second line and its separator are omitted, as in
`"1 Main St, Springfield 00000, USA"`. -/
theorem C9_address_assembly :
    (∀ (symbol : String) (resp : QuoteSummaryResp ProfileResultItem)
       (item : ProfileResultItem) (rest : List ProfileResultItem)
       (p : SummaryProfileResp) (r : ProfileResult),
      strStartsWith symbol "^" = false →
      resp.quoteSummary.error = none →
      resp.quoteSummary.result = item :: rest →
      item.summaryProfile = some p →
      resolveProfile symbol resp = Except.ok r →
      (p.address2 = none →
        (r.summaryProfile.map fun sp => sp.address) =
          some (p.address1 ++ ", " ++ p.city ++ " " ++ p.zip ++ ", " ++ p.country)) ∧
      (∀ s : String, p.address2 = some s → s ≠ "" →
        (r.summaryProfile.map fun sp => sp.address) =
          some (p.address1 ++ ", " ++ (s ++ ", ") ++ p.city ++ " " ++ p.zip ++ ", " ++
            p.country))) ∧
    (profileOutCo.summaryProfile.map fun sp => sp.address) =
      some "1 Main St, Springfield 00000, USA" := by
  constructor
  · intro symbol resp item rest p r hsym herr hres hprof hok
    simp only [resolveProfile, hsym, herr, hres, List.head?_cons, Bool.false_eq_true,
      if_false, hprof] at hok
    rw [Except.ok.injEq] at hok
    subst hok
    constructor
    · intro haddr2
      simp only [haddr2, String.append_empty]
      rfl
    · intro s hs hne
      simp only [hs, if_neg hne]
      rfl
  · rfl

/-- Witness for C9: the concrete company profiles with `address2` absent
and supplied. -/
theorem C9_address_assembly_witness :
    (profileOutCo.summaryProfile.map fun sp => sp.address) =
      some ("1 Main St" ++ ", " ++ "Springfield" ++ " " ++ "00000" ++ ", " ++ "USA") ∧
    (profileOutCo2.summaryProfile.map fun sp => sp.address) =
      some ("1 Main St" ++ ", " ++ ("Suite 5" ++ ", ") ++ "Springfield" ++ " " ++ "00000" ++
        ", " ++ "USA") := by
  have h1 := C9_address_assembly.1 "AAPL" profileRespCo profileItemCo [] profileCo
    profileOutCo (by decide) rfl rfl rfl rfl
  have h2 := C9_address_assembly.1 "AAPL" profileRespCo2 profileItemCo2 [] profileCo2
    profileOutCo2 (by decide) rfl rfl rfl rfl
  exact ⟨h1.1 rfl, h2.2 "Suite 5" rfl (by decide)⟩
